import Mathlib

/-!  Shallow embedding of the order subsystem of the fastapi-crud marketplace
backend: the SQLAlchemy models (Product, CartItem, Order, OrderItem), the
repository operations, and the service workflows (create_order_from_cart,
update_status) together with the GET /orders/:id route handler, and proofs
of the stated checkout properties.

Commit semantics modelled here, following the source: BaseRepository.create
(src/app/repositories/base_repo.py, lines 30-36) issues session.commit as part
of creating a row, so the Order header row is durably persisted before the
cart lines are validated.  An HTTPException raised later in
OrderService.create_order_from_cart propagates out of the request handler;
the session produced by DatabaseHelper.get_async_db is then closed without a
commit, so every session-local mutation made after the last commit (stock
debits, pending OrderItem inserts, the cart delete) is rolled back, while
rows from earlier commits survive.

Numeric representation: ids, stock and quantities are integers, exactly as
in the source.  Monetary values are carried as exact rationals denoting the
values the program manipulates; the two places the real system rounds are
modelled explicitly where they occur, namely the binary Float price column
(dyadicRepresentable) and the Numeric(10,2) quantization applied to each
stored monetary column independently (quantize2, storedOrderItem,
storedOrder).  The varchar(20) bound on the order status column is modelled
in update_status, whose commit the database refuses for longer strings.  -/

namespace App

/-- Inventory-relevant fields of the Product ORM model
(src/app/core/models/product.py, lines 47-51): id, price, stock, is_active.
Catalog-only fields (name, description, category, rating, tsv) are omitted as
checkout never reads them.  The source declares price as a binary Float
column; every finite binary float is a rational number, and the price field
here denotes the exact rational value of the stored float.  Which rationals
the column can hold at all is captured by dyadicRepresentable (the C7
theorems), and the loss the Numeric(10,2) monetary columns inflict on values
derived from the price is captured by quantize2, storedOrderItem and
storedOrder (the C2 theorem): neither rounding effect is idealized away, they
are modelled at the boundary where the source incurs them. -/
structure Product where
  id : Nat
  price : ℚ
  stock : ℤ
  is_active : Bool
deriving DecidableEq, Repr

/-- The CartItem ORM model (src/app/core/models/cart.py): one quantity-bearing
row per (user, product) pair, with its own primary key. -/
structure CartItem where
  id : Nat
  user_id : Nat
  product_id : Nat
  quantity : ℤ
deriving DecidableEq, Repr

/-- The OrderItem ORM model (src/app/core/models/order.py, lines 30-35):
order_id, product_id, quantity, unit_price snapshot and total_price.  The
autogenerated surrogate primary key is omitted: no modelled operation reads
it.  The monetary fields hold the exact values the service computes; the
Numeric(10,2) quantization the columns apply on commit is the function
storedOrderItem. -/
structure OrderItem where
  order_id : Nat
  product_id : Nat
  quantity : ℤ
  unit_price : ℚ
  total_price : ℚ
deriving DecidableEq, Repr

/-- The Order ORM model (src/app/core/models/order.py, lines 41-66):
id, user_id, status string and total_amount.  The created_at / updated_at
timestamps are omitted: no modelled property depends on them. -/
structure Order where
  id : Nat
  user_id : Nat
  status : String
  total_amount : ℚ
deriving DecidableEq, Repr

/-- The committed contents of the relational store, restricted to the four
tables checkout touches, plus the autoincrement counter that yields the next
Order primary key. -/
structure DBState where
  products : List Product
  cartItems : List CartItem
  orders : List Order
  orderItems : List OrderItem
  nextOrderId : Nat
deriving DecidableEq, Repr

/-- Errors surfaced by the modelled handlers.  The first five correspond to
HTTPException values raised in the source; noneTypeAttributeError models the
unhandled Python AttributeError raised by the route get_order
(src/app/api/routes/order.py, line 49) when it evaluates order.user_id on the
None returned by BaseService.get_by_id for a missing order, which FastAPI
surfaces as an HTTP 500 internal server error; statusTooLongDbError models
the database error (string data right truncation on the varchar(20) status
column declared in src/app/core/models/order.py, line 63) with which the
commit inside update_status fails when the new status exceeds 20 characters,
also an unhandled exception surfacing as a 500. -/
inductive Err where
  | cartEmpty
  | productUnavailable (product_id : Nat)
  | insufficientStock (product_id : Nat)
  | orderNotFound
  | forbidden
  | noneTypeAttributeError
  | statusTooLongDbError
deriving DecidableEq, Repr

/-- HTTP status code with which each error reaches the client: the explicit
status_code arguments of the HTTPException calls in the source, and 500 for
the unhandled AttributeError and the unhandled database error (FastAPI
converts any uncaught non-HTTP exception into a 500 response). -/
def Err.httpStatus : Err → Nat
  | .cartEmpty => 400
  | .productUnavailable _ => 400
  | .insufficientStock _ => 400
  | .orderNotFound => 404
  | .forbidden => 403
  | .noneTypeAttributeError => 500
  | .statusTooLongDbError => 500

/-- Outcome of a request handler run: the returned Order (on success) or the
error raised, paired in both cases with the store contents after the session
is closed. -/
inductive SvcResult where
  | ok (order : Order) (s : DBState)
  | err (e : Err) (s : DBState)
deriving DecidableEq, Repr

/-- The store contents after the call, whether it succeeded or failed. -/
def SvcResult.state : SvcResult → DBState
  | .ok _ s => s
  | .err _ s => s

/-- The error raised by the call, if any. -/
def SvcResult.error? : SvcResult → Option Err
  | .ok _ _ => none
  | .err e _ => some e

/-- The Order returned by the call, if it succeeded. -/
def SvcResult.order? : SvcResult → Option Order
  | .ok o _ => some o
  | .err _ _ => none

/-- Whether the call succeeded. -/
def SvcResult.isOk : SvcResult → Bool
  | .ok _ _ => true
  | .err _ _ => false

/-- CartRepository.get_user_cart (src/app/repositories/cart.py, lines
124-136): select every CartItem row whose user_id matches.  The select
carries no ORDER BY, so rows come back in store order. -/
def get_user_cart (s : DBState) (uid : Nat) : List CartItem :=
  s.cartItems.filter (fun c => c.user_id == uid)

/-- ProductRepository.get_by_id, via BaseRepository.get_by_id
(src/app/repositories/base_repo.py, lines 26-28): session.get on the primary
key, i.e. the first row with the given id. -/
def findProduct (ps : List Product) (pid : Nat) : Option Product :=
  ps.find? (fun p => p.id == pid)

/-- Effect on the products table of mutating the fetched ORM Product object
(the in-place updates product.stock -= item.quantity in the service): the row
with that primary key now carries the new field values. -/
def setProduct (ps : List Product) (p : Product) : List Product :=
  ps.map (fun q => if q.id == p.id then p else q)

/-- The per-cart-line loop of OrderService.create_order_from_cart
(src/app/services/order.py, lines 59-86), carried out on the session view of
the products table: fetch the product, fail if missing or inactive, fail if
stock is short, debit the stock, accumulate the position total and append the
new OrderItem.  The loop either fails with the first HTTPException or yields
the updated products, the pending OrderItem inserts and the accumulated
total_amount.  The source multiplies and accumulates the monetary values in
Python binary floating point; the model computes the exact rational results
on the same inputs, so algebraic identities among the computed values (the
sum accumulated IS the sum of the appended position totals) carry over, while
the two rounding effects the program actually exhibits are modelled where
they occur: the binary Float price column (dyadicRepresentable, claim C7)
and the independent Numeric(10,2) quantization of each stored monetary
column (quantize2, claim C2, where the persisted identity is shown to
fail). -/
def checkoutLoop (oid : Nat) (items : List CartItem) (ps : List Product)
    (acc : List OrderItem) (total : ℚ) :
    Except Err (List Product × List OrderItem × ℚ) :=
  match items with
  | [] => .ok (ps, acc, total)
  | item :: rest =>
    match findProduct ps item.product_id with
    | none => .error (.productUnavailable item.product_id)
    | some product =>
      if product.is_active = false then
        .error (.productUnavailable item.product_id)
      else if product.stock < item.quantity then
        .error (.insufficientStock product.id)
      else
        let debited : Product := { product with stock := product.stock - item.quantity }
        let positionTotal : ℚ := product.price * (item.quantity : ℚ)
        let oi : OrderItem :=
          { order_id := oid
            product_id := product.id
            quantity := item.quantity
            unit_price := product.price
            total_price := positionTotal }
        checkoutLoop oid rest (setProduct ps debited) (acc ++ [oi]) (total + positionTotal)

/-- OrderService.create_order_from_cart (src/app/services/order.py, lines
26-94).  Reads the cart; rejects an empty cart with state untouched; commits
the Order header row (status pending, total_amount 0) through
BaseRepository.create, which advances the autoincrement counter and persists
the row immediately; then runs the validation and debit loop.  If the loop
raises, only the committed header survives (session rollback discards the
stock debits and pending OrderItems).  On success the final commits persist
the debited stock, the OrderItems, the updated total_amount and the cart
delete issued by CartRepository.clear_cart (src/app/repositories/cart.py,
lines 114-122). -/
def create_order_from_cart (s : DBState) (uid : Nat) : SvcResult :=
  let cart_items := get_user_cart s uid
  if cart_items.isEmpty then
    .err .cartEmpty s
  else
    let oid := s.nextOrderId
    let order : Order := { id := oid, user_id := uid, status := "pending", total_amount := 0 }
    let s1 : DBState := { s with orders := s.orders ++ [order], nextOrderId := oid + 1 }
    match checkoutLoop oid cart_items s1.products [] 0 with
    | .error e => .err e s1
    | .ok (ps, ois, total) =>
      let order2 : Order := { order with total_amount := total }
      .ok order2
        { s1 with
          products := ps
          orders := s1.orders.map (fun q => if q.id == oid then order2 else q)
          orderItems := s1.orderItems ++ ois
          cartItems := s1.cartItems.filter (fun c => !(c.user_id == uid)) }

/-- OrderRepository.get_by_id, via BaseRepository.get_by_id: the first order
row with the given primary key, or none. -/
def get_by_id (s : DBState) (oid : Nat) : Option Order :=
  s.orders.find? (fun o => o.id == oid)

/-- OrderService.update_status (src/app/services/order.py, lines 104-124):
404 when the order does not exist (the exception is raised before any
mutation, so the store is unchanged); otherwise the given string is written
to the status column and committed.  No validation of the status value is
performed anywhere on this path: the route handler
(src/app/api/routes/order.py, lines 58-67) declares new_status as a plain
str query parameter.  The only constraint is the varchar(20) column type of
Order.status (src/app/core/models/order.py, line 63): a status longer than
20 characters makes the commit fail with a database string-truncation error,
so nothing is written and the unhandled exception surfaces as a 500. -/
def update_status (s : DBState) (oid : Nat) (new_status : String) : SvcResult :=
  match get_by_id s oid with
  | none => .err .orderNotFound s
  | some o =>
    if new_status.length ≤ 20 then
      let o2 : Order := { o with status := new_status }
      .ok o2 { s with orders := s.orders.map (fun q => if q.id == oid then o2 else q) }
    else
      .err .statusTooLongDbError s

/-- The GET /orders/:id route handler (src/app/api/routes/order.py, lines
38-55).  It calls BaseService.get_by_id, which returns None for a missing
order; the handler then evaluates order.user_id without a None check, so a
missing order raises AttributeError (an HTTP 500), not a 404.  When the order
exists, a requester other than the owner receives 403, and the owner receives
the order. -/
def get_order (s : DBState) (oid : Nat) (uid : Nat) : SvcResult :=
  match get_by_id s oid with
  | none => .err .noneTypeAttributeError s
  | some o =>
    if o.user_id != uid then
      .err .forbidden s
    else
      .ok o s

/-- OrderRepository.get_with_items (src/app/repositories/order.py, lines
37-51): the first order row with the given id together with its OrderItem
rows (selectinload of the items relationship, which joins on order_id). -/
def get_with_items (s : DBState) (oid : Nat) : Option (Order × List OrderItem) :=
  (s.orders.find? (fun o => o.id == oid)).map
    (fun o => (o, s.orderItems.filter (fun oi => oi.order_id == oid)))

/-- BaseRepository.update applied to a Product with data consisting of a new
price (src/app/repositories/base_repo.py, lines 38-47): the row with that
primary key gets the new price, every other row is untouched; a missing id
updates nothing. -/
def update_product_price (s : DBState) (pid : Nat) (newPrice : ℚ) : DBState :=
  { s with
    products := s.products.map
      (fun p => if p.id == pid then { p with price := newPrice } else p) }

/-- Total quantity the given cart lines request of one product: the sum of
quantity over the lines whose product_id matches. -/
def demand (items : List CartItem) (pid : Nat) : ℤ :=
  ((items.filter (fun c => c.product_id == pid)).map (fun c => c.quantity)).sum

/-- Freshness of the autoincrement order id: no existing order row and no
existing order item references the id the next BaseRepository.create call
will assign.  The serial primary key of the orders table guarantees this in
every reachable store. -/
def FreshOrderId (s : DBState) : Prop :=
  (∀ o ∈ s.orders, o.id ≠ s.nextOrderId) ∧ (∀ oi ∈ s.orderItems, oi.order_id ≠ s.nextOrderId)

/-- Events of two create_order_from_cart calls running concurrently, each
checking out a single cart line for the same product, under the default
READ COMMITTED isolation of the store.  readCheck marks the point where a
transaction fetches the product row (session.get, src/app/services/order.py,
line 60), performs the stock comparison (line 68) and computes its debited
stock value in its own session; commitTxn marks its final session.commit
(line 92), which writes the absolute stock value the transaction computed
from the snapshot it read.  The source takes no row lock (no SELECT FOR
UPDATE) and performs no optimistic re-check, so nothing orders these events
across the two transactions. -/
inductive CEvent where
  | readCheck (t : Bool)
  | commitTxn (t : Bool)
deriving DecidableEq, Repr

/-- Shared-store view of the two concurrent checkouts on one product: the
committed stock, the stock value each transaction observed when it read
(none before its read), and each transaction outcome (none while it is still
running, some true after a successful commit, some false after its stock
check failed). -/
structure CState where
  stock : ℤ
  seen1 : Option ℤ
  seen2 : Option ℤ
  done1 : Option Bool
  done2 : Option Bool
deriving DecidableEq, Repr

/-- One interleaving step.  A read observes the current committed stock; if
the observed stock is short the transaction fails there (the HTTPException
of line 69 of the service) and will never commit.  A commit of a transaction
that read enough stock writes back the debited value it computed from its
own read, exactly as the flushed UPDATE of the mutated ORM object does. -/
def cstep (q1 q2 : ℤ) (s : CState) : CEvent → CState
  | .readCheck true =>
    if s.seen1.isNone then
      { s with seen1 := some s.stock
               done1 := if s.stock < q1 then some false else s.done1 }
    else s
  | .readCheck false =>
    if s.seen2.isNone then
      { s with seen2 := some s.stock
               done2 := if s.stock < q2 then some false else s.done2 }
    else s
  | .commitTxn true =>
    match s.seen1, s.done1 with
    | some v, none => { s with stock := v - q1, done1 := some true }
    | _, _ => s
  | .commitTxn false =>
    match s.seen2, s.done2 with
    | some v, none => { s with stock := v - q2, done2 := some true }
    | _, _ => s

/-- Run an interleaving of the two single-line checkouts, starting from a
product with the given committed stock. -/
def crun (q1 q2 stock0 : ℤ) (sched : List CEvent) : CState :=
  sched.foldl (cstep q1 q2) { stock := stock0, seen1 := none, seen2 := none, done1 := none, done2 := none }

/-- Exact values an IEEE-754 binary floating point number can take: the
dyadic rationals m / 2 ^ e.  This models the value set of the SQLAlchemy
Float column that stores Product.price
(src/app/core/models/product.py, line 49); every finite binary float is of
this form. -/
def dyadicRepresentable (q : ℚ) : Prop :=
  ∃ (m : ℤ) (e : ℕ), q = (m : ℚ) / 2 ^ e

/-- Rounding applied by the storage engine when a value is written into a
Numeric(10,2) column: the value is quantized to two fractional digits,
ties rounding away from zero.  For the nonnegative monetary values arising
in checkout this agrees with round, which sends ties toward positive
infinity. -/
def quantize2 (q : ℚ) : ℚ := (round (q * 100) : ℚ) / 100

/-- Persisted view of an OrderItem row: unit_price and total_price are
Numeric(10,2) columns (src/app/core/models/order.py, lines 34-35), so the
committed row carries each monetary value quantized to two fractional
digits, each column independently.  DBState threads the exact computed
values; this function is applied wherever a claim concerns the stored
representation a later read (session.refresh or a select) observes. -/
def storedOrderItem (oi : OrderItem) : OrderItem :=
  { oi with unit_price := quantize2 oi.unit_price, total_price := quantize2 oi.total_price }

/-- Persisted view of an Order row: total_amount is a Numeric(10,2) column
(src/app/core/models/order.py, line 64), quantized on storage; the
session.refresh at the end of create_order_from_cart re-reads exactly this
quantized row. -/
def storedOrder (o : Order) : Order := { o with total_amount := quantize2 o.total_amount }

/-- Modelled from the spec: the fixed status vocabulary of an Order, namely
pending, paid, shipped, delivered, canceled.  The source declares status as a
plain String(20) column with default pending and performs no validation
against this set; the list exists here to state how the implementation
diverges from the spec on that point. -/
def validStatuses : List String := ["pending", "paid", "shipped", "delivered", "canceled"]

/-- Store with one user (id 4) whose cart holds two valid lines: two units of
product 1 (price 3, stock 10) and four units of product 2 (price 7, stock 4). -/
def goodState : DBState :=
  { products := [{ id := 1, price := 3, stock := 10, is_active := true },
                 { id := 2, price := 7, stock := 4, is_active := true }]
    cartItems := [{ id := 1, user_id := 4, product_id := 1, quantity := 2 },
                  { id := 2, user_id := 4, product_id := 2, quantity := 4 }]
    orders := []
    orderItems := []
    nextOrderId := 1 }

/-- The Order returned by a successful checkout of goodState by user 4. -/
def goodOrder : Order := { id := 1, user_id := 4, status := "pending", total_amount := 34 }

/-- Store contents after the successful checkout of goodState by user 4. -/
def goodAfter : DBState :=
  { products := [{ id := 1, price := 3, stock := 8, is_active := true },
                 { id := 2, price := 7, stock := 0, is_active := true }]
    cartItems := []
    orders := [goodOrder]
    orderItems := [{ order_id := 1, product_id := 1, quantity := 2, unit_price := 3, total_price := 6 },
                   { order_id := 1, product_id := 2, quantity := 4, unit_price := 7, total_price := 28 }]
    nextOrderId := 2 }

/-- Store where user 7 requests five units of product 1 but only three are in
stock, so checkout fails the stock check. -/
def c1State : DBState :=
  { products := [{ id := 1, price := 5, stock := 3, is_active := true }]
    cartItems := [{ id := 1, user_id := 7, product_id := 1, quantity := 5 }]
    orders := []
    orderItems := []
    nextOrderId := 1 }

/-- Store where the single cart line of user 3 references an inactive
product, so checkout fails the availability check. -/
def c5State : DBState :=
  { products := [{ id := 2, price := 4, stock := 10, is_active := false }]
    cartItems := [{ id := 1, user_id := 3, product_id := 2, quantity := 1 }]
    orders := []
    orderItems := []
    nextOrderId := 5 }

/-- Store where the cart rows of user 1 sit in the table with product 2
before product 1, so the unordered cart query returns them in that order. -/
def c6State : DBState :=
  { products := [{ id := 1, price := 2, stock := 10, is_active := true },
                 { id := 2, price := 3, stock := 10, is_active := true }]
    cartItems := [{ id := 1, user_id := 1, product_id := 2, quantity := 1 },
                  { id := 2, user_id := 1, product_id := 1, quantity := 1 }]
    orders := []
    orderItems := []
    nextOrderId := 1 }

/-- Store where user 9 checks out one unit each of two products priced
1.0049.  The Float column holds the nearest binary double to 1.0049 (about
1.00489999999999990905); the exact rational 1.0049 stands in for it here,
and both values quantize identically, the products lying well away from any
half-cent tie: each line total stores as 1.00 while the accumulated
total_amount 2.0098 stores as 2.01. -/
def c2State : DBState :=
  { products := [{ id := 1, price := 10049 / 10000, stock := 5, is_active := true },
                 { id := 2, price := 10049 / 10000, stock := 5, is_active := true }]
    cartItems := [{ id := 1, user_id := 9, product_id := 1, quantity := 1 },
                  { id := 2, user_id := 9, product_id := 2, quantity := 1 }]
    orders := []
    orderItems := []
    nextOrderId := 1 }

/-- A product whose price is the exact decimal 0.10, a value every
Numeric(10,2) monetary column must carry exactly. -/
def c7Product : Product := { id := 1, price := 1 / 10, stock := 1, is_active := true }

/-- An existing order of user 4, used by the update_status and get_order
theorems. -/
def c9Order : Order := { id := 1, user_id := 4, status := "pending", total_amount := 6 }

/-- Store holding only c9Order and its single line. -/
def c9State : DBState :=
  { products := []
    cartItems := []
    orders := [c9Order]
    orderItems := [{ order_id := 1, product_id := 1, quantity := 2, unit_price := 3, total_price := 6 }]
    nextOrderId := 2 }

attribute [local semireducible] Rat.mul Rat.add Rat.sub Rat.inv

theorem findProduct_setProduct (ps : List Product) (p' : Product) (pid : Nat) :
    findProduct (setProduct ps p') pid =
      (findProduct ps pid).map (fun q => if q.id == p'.id then p' else q) := by
  unfold findProduct setProduct
  rw [List.find?_map]
  have hpred : ((fun p : Product => p.id == pid) ∘ fun q : Product => if q.id == p'.id then p' else q)
      = (fun q : Product => q.id == pid) := by
    funext q
    by_cases h : q.id = p'.id
    · simp [Function.comp, h]
    · simp [Function.comp, h]
  rw [hpred]

theorem demand_nil (pid : Nat) : demand [] pid = 0 := rfl

theorem demand_cons_eq {item : CartItem} {rest : List CartItem} {pid : Nat}
    (h : item.product_id = pid) :
    demand (item :: rest) pid = item.quantity + demand rest pid := by
  simp [demand, h]

theorem demand_cons_ne {item : CartItem} {rest : List CartItem} {pid : Nat}
    (h : item.product_id ≠ pid) :
    demand (item :: rest) pid = demand rest pid := by
  simp [demand, h]

theorem checkoutLoop_products {oid : Nat} {items : List CartItem}
    {ps' : List Product} {acc' : List OrderItem} {total' : ℚ} :
    ∀ {ps : List Product} {acc : List OrderItem} {total : ℚ},
    checkoutLoop oid items ps acc total = .ok (ps', acc', total') →
    ∀ pid : Nat,
    findProduct ps' pid =
      (findProduct ps pid).map (fun p => { p with stock := p.stock - demand items pid }) := by
  induction items with
  | nil =>
    intro ps acc total h pid
    simp only [checkoutLoop, Except.ok.injEq, Prod.mk.injEq] at h
    obtain ⟨rfl, rfl, rfl⟩ := h
    cases hf : findProduct ps pid with
    | none => simp
    | some p => simp [demand_nil]
  | cons item rest ih =>
    intro ps acc total h pid
    simp only [checkoutLoop] at h
    split at h
    · cases h
    · rename_i product hfind
      split at h
      · cases h
      · split at h
        · cases h
        · rename_i hact hstock
          have hrec := ih h pid
          have hpid0 : product.id = item.product_id := by
            have := List.find?_some hfind
            simpa using this
          rw [findProduct_setProduct] at hrec
          by_cases hcase : item.product_id = pid
          · have hfind2 : findProduct ps pid = some product := by
              rw [← hcase]; exact hfind
            rw [hfind2] at hrec
            rw [hfind2]
            simp only [Option.map_some'] at hrec ⊢
            rw [demand_cons_eq hcase]
            have hbeq : (product.id == product.id) = true := by simp
            simp only [hbeq, if_true] at hrec
            rw [hrec]
            congr 1
            simp
            ring
          · rw [demand_cons_ne hcase]
            rw [hrec]
            cases hq : findProduct ps pid with
            | none => rfl
            | some q =>
              have hqid : q.id = pid := by
                have := List.find?_some hq
                simpa using this
              have hne : ¬ q.id = product.id := by
                intro hc
                exact hcase (by rw [← hpid0, ← hc, hqid])
              simp [hne]

theorem findProduct_setProduct_price {ps : List Product} {pid0 : Nat} {product : Product}
    (hfind : findProduct ps pid0 = some product) (p' : Product)
    (hid : p'.id = product.id) (hprice : p'.price = product.price) (pid : Nat) {p : Product}
    (hp : findProduct (setProduct ps p') pid = some p) :
    ∃ q, findProduct ps pid = some q ∧ q.price = p.price := by
  rw [findProduct_setProduct] at hp
  cases hq : findProduct ps pid with
  | none => rw [hq] at hp; cases hp
  | some q =>
    rw [hq] at hp
    simp only [Option.map_some'] at hp
    refine ⟨q, rfl, ?_⟩
    by_cases hc : q.id = p'.id
    · have hqid : q.id = pid := by simpa using List.find?_some hq
      have hprodid : product.id = pid0 := by simpa using List.find?_some hfind
      have hpid : pid = pid0 := by rw [← hqid, hc, hid, hprodid]
      rw [hpid, hfind] at hq
      injection hq with hq
      rw [if_pos (by simpa using hc)] at hp
      injection hp with hp
      rw [← hp, hprice, hq]
    · rw [if_neg (by simpa using hc)] at hp
      injection hp with hp
      rw [hp]

theorem checkoutLoop_items {oid : Nat} {items : List CartItem}
    {ps' : List Product} {acc' : List OrderItem} {total' : ℚ} :
    ∀ {ps : List Product} {acc : List OrderItem} {total : ℚ},
    checkoutLoop oid items ps acc total = .ok (ps', acc', total') →
    ∃ new : List OrderItem,
      acc' = acc ++ new ∧
      total' = total + (new.map (fun oi => oi.total_price)).sum ∧
      ∀ oi ∈ new,
        oi.order_id = oid ∧
        oi.total_price = oi.unit_price * (oi.quantity : ℚ) ∧
        ∃ p, findProduct ps oi.product_id = some p ∧ oi.unit_price = p.price := by
  induction items with
  | nil =>
    intro ps acc total h
    simp only [checkoutLoop, Except.ok.injEq, Prod.mk.injEq] at h
    obtain ⟨rfl, rfl, rfl⟩ := h
    exact ⟨[], by simp, by simp, by simp⟩
  | cons item rest ih =>
    intro ps acc total h
    simp only [checkoutLoop] at h
    split at h
    · cases h
    · rename_i product hfind
      split at h
      · cases h
      · split at h
        · cases h
        · rename_i hact hstock
          obtain ⟨new, hacc, htot, hprops⟩ := ih h
          refine ⟨{ order_id := oid, product_id := product.id, quantity := item.quantity,
                    unit_price := product.price,
                    total_price := product.price * (item.quantity : ℚ) } :: new, ?_, ?_, ?_⟩
          · rw [hacc]; simp
          · rw [htot]; simp only [List.map_cons, List.sum_cons]; ring
          · intro oi hoi
            rcases List.mem_cons.mp hoi with rfl | hmem
            · refine ⟨rfl, rfl, product, ?_, rfl⟩
              have hpid0 : product.id = item.product_id := by simpa using List.find?_some hfind
              rw [hpid0]
              exact hfind
            · obtain ⟨h1, h2, p, hp, hup⟩ := hprops oi hmem
              obtain ⟨q, hq, hqp⟩ := findProduct_setProduct_price hfind
                { product with stock := product.stock - item.quantity } rfl rfl oi.product_id hp
              exact ⟨h1, h2, q, hq, by rw [hup, ← hqp]⟩

theorem checkoutLoop_stock_nonneg {oid : Nat} {items : List CartItem}
    {ps' : List Product} {acc' : List OrderItem} {total' : ℚ} {p' : Product} {pid : Nat}
    (hp' : findProduct ps' pid = some p') :
    ∀ {ps : List Product} {acc : List OrderItem} {total : ℚ},
    checkoutLoop oid items ps acc total = .ok (ps', acc', total') →
    (∃ c ∈ items, c.product_id = pid) →
    0 ≤ p'.stock := by
  induction items with
  | nil =>
    intro ps acc total h hline
    simp at hline
  | cons item rest ih =>
    intro ps acc total h hline
    simp only [checkoutLoop] at h
    split at h
    · cases h
    · rename_i product hfind
      split at h
      · cases h
      · split at h
        · cases h
        · rename_i hact hstock
          by_cases hrest : ∃ c ∈ rest, c.product_id = pid
          · exact ih h hrest
          · have hpid : item.product_id = pid := by
              rcases hline with ⟨c, hc, hcpid⟩
              rcases List.mem_cons.mp hc with rfl | hcr
              · exact hcpid
              · exact absurd ⟨c, hcr, hcpid⟩ hrest
            have hd : demand rest pid = 0 := by
              unfold demand
              have hnil : rest.filter (fun c => c.product_id == pid) = [] := by
                apply List.filter_eq_nil_iff.mpr
                intro c hc hcc
                exact hrest ⟨c, hc, by simpa using hcc⟩
              rw [hnil]
              rfl
            have hacct := checkoutLoop_products h pid
            have hfind2 : findProduct ps pid = some product := by
              rw [← hpid]
              exact hfind
            have hfindd : findProduct
                (setProduct ps { product with stock := product.stock - item.quantity }) pid
                = some { product with stock := product.stock - item.quantity } := by
              rw [findProduct_setProduct, hfind2]
              simp
            rw [hfindd] at hacct
            simp only [Option.map_some'] at hacct
            rw [hacct] at hp'
            injection hp' with hp'
            have hstockval : p'.stock = product.stock - item.quantity - demand rest pid := by
              rw [← hp']
            rw [hstockval, hd]
            omega

theorem create_ok_elim {s : DBState} {uid : Nat} {o : Order} {s' : DBState}
    (h : create_order_from_cart s uid = .ok o s') :
    ∃ ps2 new total,
      checkoutLoop s.nextOrderId (get_user_cart s uid) s.products [] 0 = .ok (ps2, new, total) ∧
      o = { id := s.nextOrderId, user_id := uid, status := "pending", total_amount := total } ∧
      s' = { products := ps2
             cartItems := s.cartItems.filter (fun c => !(c.user_id == uid))
             orders := (s.orders ++ [({ id := s.nextOrderId, user_id := uid, status := "pending",
                                        total_amount := 0 } : Order)]).map
                         (fun q => if q.id == s.nextOrderId then o else q)
             orderItems := s.orderItems ++ new
             nextOrderId := s.nextOrderId + 1 } := by
  simp only [create_order_from_cart] at h
  split at h
  · cases h
  · split at h
    · cases h
    · rename_i x ps2 new total heq
      refine ⟨ps2, new, total, heq, ?_⟩
      cases h
      exact ⟨rfl, rfl⟩

/-- C1: the claim states that a checkout failing on any line (insufficient
stock, missing or inactive product) leaves ALL state exactly as before the
call, in particular that no Order row exists afterward.  The code violates
this: BaseRepository.create commits the Order header before the lines are
validated, so after the failing run below the store still holds an Order row
(id 1, status pending, total_amount 0) even though the error is raised,
while stock, cart lines and order items are indeed unchanged.  This theorem
evaluates create_order_from_cart at the failing input and exhibits the
surviving row. -/
theorem failed_checkout_leaves_committed_order_row :
    (create_order_from_cart c1State 7).error? = some (.insufficientStock 1) ∧
    (create_order_from_cart c1State 7).state.products = c1State.products ∧
    (create_order_from_cart c1State 7).state.cartItems = c1State.cartItems ∧
    (create_order_from_cart c1State 7).state.orderItems = [] ∧
    (create_order_from_cart c1State 7).state.orders =
      [{ id := 1, user_id := 7, status := "pending", total_amount := 0 }] := by
  decide

/-- Supporting identity about the values the service computes: for every
successful checkout the accumulated total_amount equals the sum of the
computed total_price over the OrderItem rows of the new order, and every
such row has total_price equal to unit_price times quantity.  This is the
identity among the computed values only; claim C2 asserts it of the order a
caller observes, whose monetary columns are quantized independently on
storage, and there it fails (see stored_total_amount_breaks_stored_line_sum).
The freshness hypothesis states that the autoincrement id of the new order
is not already referenced, which the serial primary key guarantees in every
reachable store. -/
theorem order_total_amount_eq_sum_of_lines
    (s : DBState) (uid : Nat) (o : Order) (s' : DBState)
    (hfresh : FreshOrderId s)
    (h : create_order_from_cart s uid = .ok o s') :
    o.total_amount =
      ((s'.orderItems.filter (fun oi => oi.order_id == o.id)).map
        (fun oi => oi.total_price)).sum ∧
    ∀ oi ∈ s'.orderItems.filter (fun oi => oi.order_id == o.id),
      oi.total_price = oi.unit_price * (oi.quantity : ℚ) := by
  obtain ⟨ps2, new, total, hloop, ho, hs⟩ := create_ok_elim h
  obtain ⟨new2, hacc, htot, hprops⟩ := checkoutLoop_items hloop
  have hnew2 : new = new2 := by simpa using hacc
  subst hnew2
  have hoid : o.id = s.nextOrderId := by rw [ho]
  have horderItems : s'.orderItems = s.orderItems ++ new := by rw [hs]
  have hold : s.orderItems.filter (fun oi => oi.order_id == o.id) = [] := by
    apply List.filter_eq_nil_iff.mpr
    intro oi hoi hbeq
    exact hfresh.2 oi hoi (by rw [← hoid]; simpa using hbeq)
  have hnewf : new.filter (fun oi => oi.order_id == o.id) = new := by
    apply List.filter_eq_self.mpr
    intro oi hoi
    simp [(hprops oi hoi).1, hoid]
  rw [horderItems, List.filter_append, hold, hnewf, List.nil_append]
  constructor
  · rw [ho]
    simpa using htot
  · intro oi hoi
    exact (hprops oi hoi).2.1

/-- Instance of the supporting identity at the concrete successful checkout
of goodState by user 4, which produces an Order with total_amount 34 over
lines totalling 6 and 28. -/
theorem order_total_amount_eq_sum_of_lines_witness :
    FreshOrderId goodState ∧
    create_order_from_cart goodState 4 = .ok goodOrder goodAfter ∧
    (goodOrder.total_amount =
      ((goodAfter.orderItems.filter (fun oi => oi.order_id == goodOrder.id)).map
        (fun oi => oi.total_price)).sum ∧
     ∀ oi ∈ goodAfter.orderItems.filter (fun oi => oi.order_id == goodOrder.id),
       oi.total_price = oi.unit_price * (oi.quantity : ℚ)) :=
  ⟨⟨by decide, by decide⟩, by decide,
   order_total_amount_eq_sum_of_lines goodState 4 goodOrder goodAfter ⟨by decide, by decide⟩ (by decide)⟩

/-- C2: the claim states that the Order produced by a successful checkout
has total_amount exactly equal to the sum of total_price over its
OrderLines.  The produced order is the row session.refresh re-reads after
commit, so its monetary fields are the Numeric(10,2)-quantized ones, each
column rounded independently from values computed off the binary Float
price.  Checking out one unit each of two products priced 1.0049 stores
1.00 as each line total, summing to 2.00, while the accumulated 2.0098
stores as total_amount 2.01: the claimed identity fails on this reachable
successful checkout.  This theorem runs the checkout and exhibits the
mismatch through the stored views. -/
theorem stored_total_amount_breaks_stored_line_sum :
    (create_order_from_cart c2State 9).isOk = true ∧
    ((create_order_from_cart c2State 9).order?.map
        (fun o => (storedOrder o).total_amount)) = some (201 / 100) ∧
    (((create_order_from_cart c2State 9).state.orderItems.filter
        (fun oi => oi.order_id == 1)).map
        (fun oi => (storedOrderItem oi).total_price)).sum = 2 ∧
    (201 / 100 : ℚ) ≠ 2 := by
  decide

/-- C3: after every successful checkout the cart of the checked-out user is
empty, every product row now carries its old stock minus the quantity the
cart ordered of it (minus zero for untouched products), and every product
that was actually checked out is left with nonnegative stock. -/
theorem checkout_clears_cart_and_debits_stock
    (s : DBState) (uid : Nat) (o : Order) (s' : DBState)
    (h : create_order_from_cart s uid = .ok o s') :
    s'.cartItems.filter (fun c => c.user_id == uid) = [] ∧
    (∀ pid : Nat, findProduct s'.products pid =
      (findProduct s.products pid).map
        (fun p => { p with stock := p.stock - demand (get_user_cart s uid) pid })) ∧
    (∀ pid : Nat, (∃ c ∈ get_user_cart s uid, c.product_id = pid) →
      ∀ p', findProduct s'.products pid = some p' → 0 ≤ p'.stock) := by
  obtain ⟨ps2, new, total, hloop, ho, hs⟩ := create_ok_elim h
  refine ⟨?_, ?_, ?_⟩
  · rw [hs]
    apply List.filter_eq_nil_iff.mpr
    intro c hc hbeq
    have h2 := (List.mem_filter.mp hc).2
    rw [hbeq] at h2
    simp at h2
  · intro pid
    rw [hs]
    exact checkoutLoop_products hloop pid
  · intro pid hline p' hp'
    rw [hs] at hp'
    exact checkoutLoop_stock_nonneg hp' hloop hline

/-- C3 witness: the theorem applied to the concrete successful checkout of
goodState by user 4, after which the cart is empty and the stocks read 8
and 0. -/
theorem checkout_clears_cart_and_debits_stock_witness :
    create_order_from_cart goodState 4 = .ok goodOrder goodAfter ∧
    (goodAfter.cartItems.filter (fun c => c.user_id == 4) = [] ∧
     (∀ pid : Nat, findProduct goodAfter.products pid =
       (findProduct goodState.products pid).map
         (fun p => { p with stock := p.stock - demand (get_user_cart goodState 4) pid })) ∧
     (∀ pid : Nat, (∃ c ∈ get_user_cart goodState 4, c.product_id = pid) →
       ∀ p', findProduct goodAfter.products pid = some p' → 0 ≤ p'.stock)) :=
  ⟨by decide, checkout_clears_cart_and_debits_stock goodState 4 goodOrder goodAfter (by decide)⟩

/-- C4: the claim states that of two concurrent checkouts whose combined
demand exceeds the stock at most one succeeds.  The code takes no row lock
and performs no optimistic re-check, so in the interleaving below (both
transactions read the product before either commits) both single-line
checkouts of 3 and 4 units succeed against a stock of 5: a classic lost
update in which 7 units are sold.  The committed stock value itself stays
nonnegative (each transaction writes back the difference it computed), but
the at-most-one-succeeds part of the claim is false. -/
theorem concurrent_checkouts_both_succeed_on_short_stock :
    (crun 3 4 5 [.readCheck true, .readCheck false, .commitTxn true, .commitTxn false]).done1 = some true ∧
    (crun 3 4 5 [.readCheck true, .readCheck false, .commitTxn true, .commitTxn false]).done2 = some true ∧
    ¬ ((3 : ℤ) + 4 ≤ 5) ∧
    (crun 3 4 5 [.readCheck true, .readCheck false, .commitTxn true, .commitTxn false]).stock = 1 := by
  decide

/-- C5: the claim states that no reachable state contains an Order with zero
lines.  The code commits the Order header with zero lines before validating
the cart, so the failed checkout below (inactive product) leaves a
committed Order row with id 5 and no OrderItem row referencing it. -/
theorem failed_checkout_creates_zero_line_order :
    (create_order_from_cart c5State 3).isOk = false ∧
    ((create_order_from_cart c5State 3).state.orders.filter (fun o => o.id == 5)).length = 1 ∧
    (create_order_from_cart c5State 3).state.orderItems.filter (fun oi => oi.order_id == 5) = [] := by
  decide

/-- C6: the claim states that checkout processes cart lines in ascending
product_id order.  The cart query has no ORDER BY and the service applies no
sort, so the lines are processed in store order: on c6State the emitted
OrderItem rows touch products in the order 2 then 1, which is not
ascending. -/
theorem checkout_processes_cart_in_query_order :
    (create_order_from_cart c6State 1).isOk = true ∧
    ((create_order_from_cart c6State 1).state.orderItems.map (fun oi => oi.product_id)) = [2, 1] ∧
    ¬ List.Pairwise (fun a b => a ≤ b)
        ((create_order_from_cart c6State 1).state.orderItems.map (fun oi => oi.product_id)) := by
  have hlist : ((create_order_from_cart c6State 1).state.orderItems.map
      (fun oi => oi.product_id)) = [2, 1] := by decide
  refine ⟨by decide, hlist, ?_⟩
  intro hp
  rw [hlist] at hp
  simp [List.pairwise_cons] at hp

/-- C7: the claim states that all monetary values are computed with exact
fixed-point decimal arithmetic.  Product.price, the value checkout snapshots
into unit_price and multiplies into total_price, is stored in a binary Float
column, whose exact values are the dyadic rationals; the plain decimal price
0.10 is not among them, so a product priced 0.10 cannot be held exactly and
the monetary computation starts from a rounded value. -/
theorem product_price_decimal_not_float_representable
    (p : Product) (hp : p.price = 1 / 10) : ¬ dyadicRepresentable p.price := by
  rw [hp]
  rintro ⟨m, e, hme⟩
  have h2 : ((2:ℚ)) ^ e ≠ 0 := by positivity
  rw [div_eq_div_iff (by norm_num) h2, one_mul] at hme
  have hz : (2:ℤ) ^ e = m * 10 := by exact_mod_cast hme
  have h5 : (5:ℤ) ∣ 2 ^ e := ⟨2 * m, by linarith⟩
  have hp5 : Prime (5:ℤ) := by norm_num
  have := hp5.dvd_of_dvd_pow h5
  norm_num at this

/-- C7 witness: the theorem applied to the concrete product c7Product with
price 0.10. -/
theorem product_price_decimal_not_float_representable_witness :
    c7Product.price = 1 / 10 ∧ ¬ dyadicRepresentable c7Product.price :=
  ⟨rfl, product_price_decimal_not_float_representable c7Product rfl⟩

/-- C8: fetching a created order by id returns exactly the stored line items,
and a later change to the price of any product does not alter the fetch
result; moreover every fetched line carries as unit_price the price the
product had in the store at creation time, never a re-read value. -/
theorem order_roundtrip_immutable_unit_price
    (s : DBState) (uid : Nat) (o : Order) (s' : DBState)
    (hfresh : FreshOrderId s)
    (h : create_order_from_cart s uid = .ok o s') (pid : Nat) (newPrice : ℚ) :
    get_with_items (update_product_price s' pid newPrice) o.id = get_with_items s' o.id ∧
    get_with_items s' o.id = some (o, s'.orderItems.filter (fun oi => oi.order_id == o.id)) ∧
    ∀ oi ∈ s'.orderItems.filter (fun oi => oi.order_id == o.id),
      ∃ p, findProduct s.products oi.product_id = some p ∧ oi.unit_price = p.price := by
  obtain ⟨ps2, new, total, hloop, ho, hs⟩ := create_ok_elim h
  obtain ⟨new2, hacc, htot, hprops⟩ := checkoutLoop_items hloop
  have hnew2 : new = new2 := by simpa using hacc
  subst hnew2
  have hoid : o.id = s.nextOrderId := by rw [ho]
  have horders : s'.orders = s.orders ++ [o] := by
    rw [hs]
    simp only [List.map_append, List.map_cons, List.map_nil]
    congr 1
    · have hmap : s.orders.map (fun q => if q.id == s.nextOrderId then o else q)
          = s.orders.map id :=
        List.map_congr_left (fun q hq => by simp [hfresh.1 q hq])
      rw [hmap, List.map_id]
    · simp
  have hfind : s'.orders.find? (fun q => q.id == o.id) = some o := by
    rw [horders, List.find?_append]
    have h1 : s.orders.find? (fun q => q.id == o.id) = none :=
      List.find?_eq_none.mpr (fun q hq => by simp [hoid, hfresh.1 q hq])
    rw [h1]
    simp
  refine ⟨rfl, ?_, ?_⟩
  · unfold get_with_items
    rw [hfind]
    rfl
  · intro oi hoi
    have hmem := List.mem_filter.mp hoi
    have horderItems : s'.orderItems = s.orderItems ++ new := by rw [hs]
    rw [horderItems] at hmem
    rcases List.mem_append.mp hmem.1 with hmold | hmnew
    · exact absurd (by simpa [hoid] using hmem.2) (hfresh.2 oi hmold)
    · exact (hprops oi hmnew).2.2

/-- C8 witness: the theorem applied to the concrete checkout of goodState by
user 4 and a subsequent change of the price of product 1 to 5. -/
theorem order_roundtrip_immutable_unit_price_witness :
    FreshOrderId goodState ∧
    create_order_from_cart goodState 4 = .ok goodOrder goodAfter ∧
    (get_with_items (update_product_price goodAfter 1 5) goodOrder.id =
       get_with_items goodAfter goodOrder.id ∧
     get_with_items goodAfter goodOrder.id =
       some (goodOrder, goodAfter.orderItems.filter (fun oi => oi.order_id == goodOrder.id)) ∧
     ∀ oi ∈ goodAfter.orderItems.filter (fun oi => oi.order_id == goodOrder.id),
       ∃ p, findProduct goodState.products oi.product_id = some p ∧ oi.unit_price = p.price) :=
  ⟨⟨by decide, by decide⟩, by decide,
   order_roundtrip_immutable_unit_price goodState 4 goodOrder goodAfter
     ⟨by decide, by decide⟩ (by decide) 1 5⟩

/-- C9 counterexample: the claim states that update_status accepts a new
status only if it belongs to the fixed set of order statuses.  On the
existing order of c9State the service happily writes the five-character
string bogus, which fits the varchar(20) column but is not in that set, so
the validation half of the claim is false. -/
theorem update_status_accepts_any_string :
    (update_status c9State 1 "bogus").isOk = true ∧
    ((update_status c9State 1 "bogus").order?.map (fun o => o.status)) = some "bogus" ∧
    "bogus" ∉ validStatuses := by
  decide

/-- C9 amended: update_status raises OrderNotFound (404) and leaves the
store unchanged when no order with the given id exists; when the order
exists, any string that fits the varchar(20) status column is written
unconditionally, with no validation against the fixed status set; a string
longer than 20 characters makes the commit fail with a database
string-truncation error (surfacing as a 500), and nothing is written. -/
theorem update_status_notfound_else_unvalidated_write
    (s : DBState) (oid : Nat) (ns : String) :
    (get_by_id s oid = none → update_status s oid ns = .err .orderNotFound s) ∧
    (∀ o, get_by_id s oid = some o → ns.length ≤ 20 →
      update_status s oid ns =
        .ok { o with status := ns }
          { s with orders := s.orders.map (fun q => if q.id == oid then { o with status := ns } else q) }) ∧
    (∀ o, get_by_id s oid = some o → 20 < ns.length →
      update_status s oid ns = .err .statusTooLongDbError s) := by
  refine ⟨?_, ?_, ?_⟩
  · intro hnone
    simp only [update_status, hnone]
  · intro o ho hlen
    simp only [update_status, ho]
    rw [if_pos hlen]
  · intro o ho hlen
    simp only [update_status, ho]
    rw [if_neg (by omega)]

/-- C9 witness: the amended theorem applied to c9State and the 9-character
status delivered, discharging the lookup and length hypotheses on the
existing order. -/
theorem update_status_notfound_else_unvalidated_write_witness :
    get_by_id c9State 1 = some c9Order ∧
    ("delivered" : String).length ≤ 20 ∧
    update_status c9State 1 "delivered" =
      .ok { c9Order with status := "delivered" }
        { c9State with orders := (c9State.orders.map
            (fun q => if q.id == 1 then { c9Order with status := "delivered" } else q)) } :=
  ⟨by decide, by decide,
   (update_status_notfound_else_unvalidated_write c9State 1 "delivered").2.1 c9Order
     (by decide) (by decide)⟩

/-- C10: the claim states that GET on a missing order id fails with
OrderNotFound, a 4xx client error.  The route calls BaseService.get_by_id,
which returns None for a missing order, and then dereferences user_id on it
without a None check, raising AttributeError, which FastAPI surfaces as an
HTTP 500 internal server error rather than a 404.  The owner and non-owner
(403) paths behave as the claim says, as this theorem also records. -/
theorem get_order_missing_order_crashes_with_500 :
    get_by_id c9State 42 = none ∧
    get_order c9State 42 4 = .err .noneTypeAttributeError c9State ∧
    Err.noneTypeAttributeError.httpStatus = 500 ∧
    Err.orderNotFound.httpStatus = 404 ∧
    get_order c9State 1 5 = .err .forbidden c9State ∧
    Err.forbidden.httpStatus = 403 ∧
    get_order c9State 1 4 = .ok c9Order c9State := by
  decide

end App
